import Mathlib

/-!
# Verification of the stylerecommend outfit pipeline

Shallow embedding of the outfit-recommendation core of
`imageprocessor/services.py`:

* candidate generation (`StyleRecommendationService.generate_outfit_recommendations`,
  lines 754-824),
* the batched LLM analyzer (`_analyze_all_outfits_with_ai`, lines 1095-1196),
* the concurrent per-outfit render pipeline (`_process_single_outfit` and
  `_process_outfits_concurrently`, lines 913-1017),
* the flat-lay compositor (`OutfitImageGenerator.generate_outfit_flatlay_image`
  and `_calculate_flatlay_positions`, lines 1391-1501 and 1611-1689).

Python dicts with a fixed key set are embedded as structures with `Option`
fields (a key that may be absent or `None` is `none`).  Python floats that the
code only ever sets to exact decimal constants are embedded as `ℚ`.  Network
calls, thread scheduling and the PIL raster backend are all external to the
embedded code and enter as explicit parameters (provider outcomes, completion
order, the image-loading substitution).
-/

/-- Raw image bytes, abstractly a list of byte values.  The code base64-encodes
these bytes before storing them in an outfit dict; base64 is injective, so the
embedding stores the bytes themselves and the present/absent distinction is
unchanged. -/
abbrev ImageData := List Nat

/-- A wardrobe item (`imageprocessor/models.py`, `WardrobeItem`), restricted to
the fields the embedded core reads: `category`, `color` and `name`. -/
structure WardrobeItem where
  name : String
  category : String
  color : String
deriving DecidableEq

/-- An outfit dict as built by `_create_outfit_from_items` and later enriched
in place by the analyzer and the render pipeline.  Keys that are only added by
a later stage are `Option` fields defaulting to `none`. -/
structure Outfit where
  name : String
  items : List WardrobeItem
  occasion : String
  season : String
  tops : List WardrobeItem
  bottoms : List WardrobeItem
  shoes : List WardrobeItem
  accessories : List WardrobeItem
  outerwear : List WardrobeItem
  dresses : List WardrobeItem
  style_description : Option String := none
  color_scheme : Option (List String) := none
  style_tags : Option (List String) := none
  confidence_score : Option ℚ := none
  style_notes : Option String := none
  improvement_suggestions : Option (List String) := none
  ranking_position : Option Int := none
  flatlay_image_data : Option ImageData := none
  mannequin_image_data : Option ImageData := none
  mannequin_analysis : Option String := none
deriving DecidableEq

/-- Python `str.title()` on a list of characters: the first alphabetic
character of every run of alphabetic characters is upper-cased, the rest of
the run is lower-cased. -/
def pyTitleAux : Bool → List Char → List Char
  | _, [] => []
  | prev, c :: cs =>
    if c.isAlpha then
      (if prev then c.toLower else c.toUpper) :: pyTitleAux true cs
    else
      c :: pyTitleAux false cs

/-- Python `str.title()`. -/
def pyTitle (s : String) : String := ⟨pyTitleAux false s.data⟩

/-- `StyleRecommendationService._create_outfit_from_items` (services.py,
lines 898-911): wraps an item list into the outfit dict, bucketing the items
by category. -/
def create_outfit_from_items (items : List WardrobeItem) (occasion season name : String) :
    Outfit :=
  { name := name
    items := items
    occasion := occasion
    season := season
    tops := items.filter (fun i => i.category == "top")
    bottoms := items.filter (fun i => i.category == "bottom")
    shoes := items.filter (fun i => i.category == "shoes")
    accessories := items.filter (fun i => i.category == "accessories")
    outerwear := items.filter (fun i => i.category == "outerwear")
    dresses := items.filter (fun i => i.category == "dress") }

/-- The dress branch of candidate generation (services.py, lines 766-783):
`[dress]` plus the first shoe and first accessory when those buckets are
non-empty, plus the first outerwear item when the bucket is non-empty and the
season is fall or winter. -/
def dress_outfit (shoes accessories outerwear : List WardrobeItem)
    (occasion season : String) (dress : WardrobeItem) : Outfit :=
  create_outfit_from_items
    ([dress] ++ shoes.head?.toList ++ accessories.head?.toList ++
      (if season == "fall" || season == "winter" then outerwear.head?.toList else []))
    occasion season ("Elegant " ++ dress.color ++ " Dress")

/-- The top+bottom branch of candidate generation (services.py, lines
786-805): `[top, bottom]` augmented exactly like the dress branch. -/
def pair_outfit (shoes accessories outerwear : List WardrobeItem)
    (occasion season : String) (top bottom : WardrobeItem) : Outfit :=
  create_outfit_from_items
    ([top, bottom] ++ shoes.head?.toList ++ accessories.head?.toList ++
      (if season == "fall" || season == "winter" then outerwear.head?.toList else []))
    occasion season
    (pyTitle top.color ++ " " ++ pyTitle top.category ++ " & " ++
      pyTitle bottom.color ++ " " ++ pyTitle bottom.category)

/-- The single-item fallback branch (services.py, lines 808-824): one
candidate per pool item, augmented with the first shoe/accessory when present
and of a different category. -/
def single_item_outfit (shoes accessories : List WardrobeItem)
    (occasion season : String) (item : WardrobeItem) : Outfit :=
  create_outfit_from_items
    ([item] ++ (if item.category ≠ "shoes" then shoes.head?.toList else []) ++
      (if item.category ≠ "accessories" then accessories.head?.toList else []))
    occasion season
    ("Stylish " ++ pyTitle item.color ++ " " ++ pyTitle item.category)

/-- The candidate-generation stage of
`StyleRecommendationService.generate_outfit_recommendations` (services.py,
lines 754-824), starting from the already-filtered item pool: bucket the pool
by category, emit one candidate per dress, one per (top, bottom) pair, and
fall back to single-item candidates only when both branches are empty. -/
def generate_outfit_candidates (pool : List WardrobeItem) (occasion season : String) :
    List Outfit :=
  let tops := pool.filter (fun i => i.category == "top")
  let bottoms := pool.filter (fun i => i.category == "bottom")
  let shoes := pool.filter (fun i => i.category == "shoes")
  let accessories := pool.filter (fun i => i.category == "accessories")
  let outerwear := pool.filter (fun i => i.category == "outerwear")
  let dresses := pool.filter (fun i => i.category == "dress")
  let outfits :=
    dresses.map (dress_outfit shoes accessories outerwear occasion season) ++
      tops.flatMap (fun t =>
        bottoms.map (fun b => pair_outfit shoes accessories outerwear occasion season t b))
  if outfits.isEmpty then
    pool.map (single_item_outfit shoes accessories occasion season)
  else
    outfits

/-- `True` exactly when the `if not outfits:` single-item fallback branch of
candidate generation fires (services.py, line 808). -/
def single_item_fallback_used (pool : List WardrobeItem) (occasion season : String) : Bool :=
  (pool.filter (fun i => i.category == "dress")).isEmpty &&
    ((pool.filter (fun i => i.category == "top")).isEmpty ||
      (pool.filter (fun i => i.category == "bottom")).isEmpty)

lemma single_item_fallback_used_iff (pool : List WardrobeItem) (occasion season : String) :
    single_item_fallback_used pool occasion season = true ↔
      ((pool.filter (fun i => i.category == "dress")).map
          (dress_outfit (pool.filter (fun i => i.category == "shoes"))
            (pool.filter (fun i => i.category == "accessories"))
            (pool.filter (fun i => i.category == "outerwear")) occasion season) ++
        (pool.filter (fun i => i.category == "top")).flatMap (fun t =>
          (pool.filter (fun i => i.category == "bottom")).map (fun b =>
            pair_outfit (pool.filter (fun i => i.category == "shoes"))
              (pool.filter (fun i => i.category == "accessories"))
              (pool.filter (fun i => i.category == "outerwear")) occasion season t b))).isEmpty
        = true := by
  simp only [single_item_fallback_used, List.isEmpty_iff, Bool.and_eq_true, Bool.or_eq_true,
    List.append_eq_nil, List.map_eq_nil_iff, List.flatMap_eq_nil_iff]
  constructor
  · rintro ⟨hd, hc⟩
    refine ⟨hd, fun t ht => ?_⟩
    rcases hc with hc | hc
    · exact absurd ht (by simp [hc])
    · simp [hc]
  · rintro ⟨hd, hc⟩
    refine ⟨hd, ?_⟩
    by_cases htop : (pool.filter (fun i => i.category == "top")) = []
    · exact Or.inl htop
    · rcases List.exists_mem_of_ne_nil _ htop with ⟨t, ht⟩
      have := hc t ht
      right
      simpa using this

/-- C6: for every filtered pool with at least one top and at least one bottom,
candidate generation emits at least `#tops * #bottoms` candidates and, for
every (top, bottom) pair of the full cross-product, the candidate made of that
pair augmented with the first available shoe, accessory and (in fall/winter)
outerwear item. -/
theorem candidate_generation_cross_product (pool : List WardrobeItem)
    (occasion season : String)
    (htop : pool.filter (fun i => i.category == "top") ≠ [])
    (hbot : pool.filter (fun i => i.category == "bottom") ≠ []) :
    (pool.filter (fun i => i.category == "top")).length *
        (pool.filter (fun i => i.category == "bottom")).length ≤
      (generate_outfit_candidates pool occasion season).length ∧
    ∀ t ∈ pool.filter (fun i => i.category == "top"),
      ∀ b ∈ pool.filter (fun i => i.category == "bottom"),
        pair_outfit (pool.filter (fun i => i.category == "shoes"))
            (pool.filter (fun i => i.category == "accessories"))
            (pool.filter (fun i => i.category == "outerwear")) occasion season t b ∈
          generate_outfit_candidates pool occasion season := by
  classical
  obtain ⟨t0, ht0⟩ := List.exists_mem_of_ne_nil _ htop
  obtain ⟨b0, hb0⟩ := List.exists_mem_of_ne_nil _ hbot
  simp only [generate_outfit_candidates]
  set tops := pool.filter (fun i => i.category == "top") with htops
  set bottoms := pool.filter (fun i => i.category == "bottom") with hbottoms
  set shoes := pool.filter (fun i => i.category == "shoes") with hshoes
  set accessories := pool.filter (fun i => i.category == "accessories") with haccessories
  set outerwear := pool.filter (fun i => i.category == "outerwear") with houterwear
  set dresses := pool.filter (fun i => i.category == "dress") with hdresses
  have hmem0 : pair_outfit shoes accessories outerwear occasion season t0 b0 ∈
      tops.flatMap (fun t =>
        bottoms.map (fun b => pair_outfit shoes accessories outerwear occasion season t b)) :=
    List.mem_flatMap.mpr ⟨t0, ht0, List.mem_map_of_mem _ hb0⟩
  have happne :
      dresses.map (dress_outfit shoes accessories outerwear occasion season) ++
        tops.flatMap (fun t =>
          bottoms.map (fun b => pair_outfit shoes accessories outerwear occasion season t b)) ≠
        [] := by
    intro h
    rcases List.append_eq_nil.mp h with ⟨-, h2⟩
    rw [h2] at hmem0
    exact List.not_mem_nil _ hmem0
  rw [if_neg (by simpa [List.isEmpty_iff] using happne)]
  constructor
  · have hlen : (tops.flatMap (fun t =>
        bottoms.map (fun b => pair_outfit shoes accessories outerwear occasion season t b))).length =
        tops.length * bottoms.length := by
      rw [List.length_flatMap]
      have : (List.map (List.length ∘ fun t =>
          bottoms.map (fun b => pair_outfit shoes accessories outerwear occasion season t b))
            tops) = List.replicate tops.length bottoms.length := by
        rw [show (List.length ∘ fun t => bottoms.map (fun b =>
            pair_outfit shoes accessories outerwear occasion season t b)) =
            Function.const WardrobeItem bottoms.length from ?_, List.map_const]
        funext t
        simp [Function.const]
      rw [this, List.sum_replicate, smul_eq_mul]
    rw [List.length_append, hlen]
    omega
  · intro t ht b hb
    exact List.mem_append_right _
      (List.mem_flatMap.mpr ⟨t, ht, List.mem_map_of_mem _ hb⟩)

/-- Witness pool for `candidate_generation_cross_product`: one top, one
bottom, one shoe. -/
def witness_top : WardrobeItem := { name := "White Tee", category := "top", color := "white" }

/-- Witness bottom item. -/
def witness_bottom : WardrobeItem := { name := "Blue Jeans", category := "bottom", color := "blue" }

/-- Witness shoe item. -/
def witness_shoe : WardrobeItem := { name := "Sneakers", category := "shoes", color := "white" }

theorem candidate_generation_cross_product_witness :
    ([witness_top, witness_bottom, witness_shoe].filter (fun i => i.category == "top") ≠ []) ∧
    ([witness_top, witness_bottom, witness_shoe].filter (fun i => i.category == "bottom") ≠ []) ∧
    ([witness_top, witness_bottom, witness_shoe].filter
          (fun i => i.category == "top")).length *
        ([witness_top, witness_bottom, witness_shoe].filter
          (fun i => i.category == "bottom")).length ≤
      (generate_outfit_candidates [witness_top, witness_bottom, witness_shoe]
        "casual" "summer").length :=
  ⟨by decide, by decide,
    (candidate_generation_cross_product [witness_top, witness_bottom, witness_shoe]
      "casual" "summer" (by decide) (by decide)).1⟩

/-- The dress of the C9 scenario. -/
def winter_dress : WardrobeItem := { name := "Evening Gown", category := "dress", color := "red" }

/-- The shoes of the C9 scenario. -/
def winter_shoes : WardrobeItem := { name := "Black Heels", category := "shoes", color := "black" }

/-- C9: for a filtered pool of exactly one dress and one pair of shoes with
occasion `formal` and season `winter`, candidate generation yields exactly one
candidate, its items are precisely the dress and the shoes, its outerwear
bucket is empty, and the single-item fallback branch is not taken. -/
theorem dress_shoes_winter_single_candidate :
    generate_outfit_candidates [winter_dress, winter_shoes] "formal" "winter" =
      [create_outfit_from_items [winter_dress, winter_shoes] "formal" "winter"
        "Elegant red Dress"] ∧
    (create_outfit_from_items [winter_dress, winter_shoes] "formal" "winter"
        "Elegant red Dress").items = [winter_dress, winter_shoes] ∧
    (create_outfit_from_items [winter_dress, winter_shoes] "formal" "winter"
        "Elegant red Dress").outerwear = [] ∧
    single_item_fallback_used [winter_dress, winter_shoes] "formal" "winter" = false :=
  ⟨by decide, by decide, by decide, by decide⟩

/-- State of Python's global `random` module, abstract.  The embedded code
never draws from the generator, so only seeding is modelled. -/
abbrev RandomState := Nat

/-- `random.seed(n)`: replaces the module state by one determined by `n`
alone (services.py, line 1674). -/
def random_seed (n : Nat) (_rng : RandomState) : RandomState := n

/-- One iteration of the 5+-item cluster loop of
`OutfitImageGenerator._calculate_flatlay_positions` (services.py, lines
1676-1687).  The Python floats are exact: `radius * 0.5 * (i % 2 + 1)` is an
integer multiple of one half, so `int(center + radius * 0.5 * k * s)` equals
the truncated division `(2*center + radius*k*s).tdiv 2`.  The unused `angle`
variable of the loop is omitted.  Both coordinates are then clamped to
`[size, canvas - size]` exactly as in the source. -/
def cluster_item_position (canvas_width canvas_height size item_count i : Nat) :
    Int × Int × Int :=
  let radius : Int := (size / 2 : Nat)
  let center_x : Int := (canvas_width / 2 : Nat)
  let center_y : Int := (canvas_height / 2 : Nat)
  let sgn : Int := if i < item_count / 2 then 1 else -1
  let kx : Int := ((i % 2 : Nat) : Int) + 1
  let ky : Int := ((i + 1) % 2 : Nat)
  let x0 : Int := (2 * center_x + radius * kx * sgn).tdiv 2
  let y0 : Int := (2 * center_y + radius * ky * sgn).tdiv 2
  (max (size : Int) (min ((canvas_width : Int) - size) x0),
    max (size : Int) (min ((canvas_height : Int) - size) y0),
    (size : Int))

/-- `OutfitImageGenerator._calculate_flatlay_positions` (services.py, lines
1611-1689).  All integer divisions in the source act on non-negative values,
so Python `//` is plain division here.  The 5+-item branch seeds the global
random generator with the fixed value 42 and never draws from it. -/
def calculate_flatlay_positions (items : List WardrobeItem)
    (canvas_width canvas_height : Nat) (rng : RandomState) :
    List (Int × Int × Int) × RandomState :=
  let item_count := items.length
  let short := min canvas_width canvas_height
  if item_count = 1 then
    let size := short * 9 / 10
    ([(((canvas_width : Int) - size) / 2, ((canvas_height : Int) - size) / 2, (size : Int))],
      rng)
  else if item_count = 2 then
    let size := short * 3 / 7
    let center_x : Int := (canvas_width / 2 : Nat)
    let y : Int := ((canvas_height : Int) - size) / 2
    ([(center_x - size - 10, y, (size : Int)), (center_x + 10, y, (size : Int))], rng)
  else if item_count = 3 then
    let size := short * 2 / 5
    let center_x : Int := (canvas_width / 2 : Nat)
    let center_y : Int := (canvas_height / 2 : Nat)
    ([(center_x - (size : Int) / 2, center_y - size - 5, (size : Int)),
      (center_x - size - 5, center_y + 5, (size : Int)),
      (center_x + 5, center_y + 5, (size : Int))], rng)
  else if item_count = 4 then
    let size := short * 2 / 7
    let center_x : Int := (canvas_width / 2 : Nat)
    let center_y : Int := (canvas_height / 2 : Nat)
    let offset : Int := (size / 2 : Nat) + 5
    ([(center_x - offset, center_y - offset, (size : Int)),
      (center_x + offset, center_y - offset, (size : Int)),
      (center_x - offset, center_y + offset, (size : Int)),
      (center_x + offset, center_y + offset, (size : Int))], rng)
  else
    let size := short * 2 / 9
    ((List.range item_count).map (fun i =>
        cluster_item_position canvas_width canvas_height size item_count i),
      random_seed 42 rng)

lemma calculate_flatlay_positions_fst_congr (items1 items2 : List WardrobeItem)
    (canvas_width canvas_height : Nat) (rng1 rng2 : RandomState)
    (hlen : items1.length = items2.length) :
    (calculate_flatlay_positions items1 canvas_width canvas_height rng1).1 =
      (calculate_flatlay_positions items2 canvas_width canvas_height rng2).1 := by
  simp only [calculate_flatlay_positions, hlen]
  split_ifs <;> rfl

lemma cluster_item_position_bounds (item_count i : Nat) :
    0 ≤ (cluster_item_position 400 300 66 item_count i).1 ∧
    0 ≤ (cluster_item_position 400 300 66 item_count i).2.1 ∧
    (cluster_item_position 400 300 66 item_count i).1 +
        (cluster_item_position 400 300 66 item_count i).2.2 ≤ 400 ∧
    (cluster_item_position 400 300 66 item_count i).2.1 +
        (cluster_item_position 400 300 66 item_count i).2.2 ≤ 300 ∧
    (cluster_item_position 400 300 66 item_count i).2.2 = 66 := by
  have h2 : (i + 1) % 2 = (i % 2 + 1) % 2 := by rw [Nat.add_mod]
  rcases Nat.mod_two_eq_zero_or_one i with hpar | hpar <;>
    by_cases hlt : i < item_count / 2 <;>
      simp only [cluster_item_position, h2, hpar, hlt] <;> decide

/-- C7: for every item list with at least 5 items, the positioning function
returns exactly one `(x, y, size)` tuple per item; every tuple stays within
the 400x300 canvas (`0 ≤ x`, `0 ≤ y`, `x + size ≤ 400`, `y + size ≤ 300`);
every size is 66 = 300 * 22 / 100, i.e. exactly 22% of the shorter canvas
dimension; and the placement is independent of the incoming random state. -/
theorem flatlay_positions_within_canvas (items : List WardrobeItem)
    (rng rng' : RandomState) (h5 : 5 ≤ items.length) :
    (calculate_flatlay_positions items 400 300 rng).1.length = items.length ∧
    (∀ p ∈ (calculate_flatlay_positions items 400 300 rng).1,
      0 ≤ p.1 ∧ 0 ≤ p.2.1 ∧ p.1 + p.2.2 ≤ 400 ∧ p.2.1 + p.2.2 ≤ 300 ∧
        p.2.2 = 66 ∧ (66 : Nat) = 300 * 22 / 100) ∧
    (calculate_flatlay_positions items 400 300 rng).1 =
      (calculate_flatlay_positions items 400 300 rng').1 := by
  refine ⟨?_, ?_, calculate_flatlay_positions_fst_congr items items 400 300 rng rng' rfl⟩
  · simp only [calculate_flatlay_positions]
    rw [if_neg (by omega), if_neg (by omega), if_neg (by omega), if_neg (by omega)]
    simp
  · intro p hp
    simp only [calculate_flatlay_positions] at hp
    rw [if_neg (by omega), if_neg (by omega), if_neg (by omega), if_neg (by omega)] at hp
    simp only [List.mem_map, List.mem_range] at hp
    obtain ⟨i, -, rfl⟩ := hp
    have hsize : min 400 300 * 2 / 9 = 66 := by decide
    rw [hsize]
    have h := cluster_item_position_bounds items.length i
    exact ⟨h.1, h.2.1, h.2.2.1, h.2.2.2.1, h.2.2.2.2, by decide⟩

/-- Concrete 5-item list used as a witness. -/
def five_items : List WardrobeItem :=
  [witness_top, witness_bottom, witness_shoe, winter_dress, winter_shoes]

theorem flatlay_positions_within_canvas_witness :
    (calculate_flatlay_positions five_items 400 300 7).1.length = five_items.length :=
  (flatlay_positions_within_canvas five_items 7 7 (by decide)).1

/-- The item collection step of `generate_outfit_flatlay_image` (services.py,
lines 1400-1413): concatenate the six category buckets of the outfit dict.
A missing or empty bucket contributes nothing, exactly like the guarded
`extend` calls of the source. -/
def outfit_all_items (outfit : Outfit) : List WardrobeItem :=
  outfit.tops ++ outfit.bottoms ++ outfit.shoes ++ outfit.accessories ++
    outfit.outerwear ++ outfit.dresses

/-- The image placed for one item: either bytes resolved from the item's
stored image files, or the light-gray placeholder tile labelled with the
first 8 characters of the item name (services.py, lines 1444-1472). -/
inductive ItemImage where
  | loaded (data : ImageData)
  | placeholder (label : String)
deriving DecidableEq

/-- One paste of a resized item image onto the white 400x300 canvas
(services.py, lines 1474-1478).  The PNG encoding of the finished canvas is a
deterministic function of the paste sequence, so the canvas content stands in
for the output bytes. -/
structure PasteOperation where
  x : Int
  y : Int
  size : Int
  image : ItemImage
deriving DecidableEq

/-- `OutfitImageGenerator.generate_outfit_flatlay_image` (services.py, lines
1391-1501).  `load_image` is the fixed placeholder substitution: the result of
resolving each item's processed/original image file (`none` when the item
falls back to a placeholder tile).  The global random state is threaded
through the positioning call.  The occasion/season arguments only feed the
saved file name and the error dictionaries, not the image bytes. -/
def generate_outfit_flatlay_image (outfit : Outfit) (occasion season : String)
    (load_image : WardrobeItem → Option ImageData) (rng : RandomState) :
    Except String (List PasteOperation) × RandomState :=
  let all_items := outfit_all_items outfit
  if all_items.isEmpty then
    (Except.error "No items found in outfit", rng)
  else
    let positions := (calculate_flatlay_positions all_items 400 300 rng).1
    let rng1 := (calculate_flatlay_positions all_items 400 300 rng).2
    (Except.ok ((all_items.zip positions).map (fun pr =>
      { x := pr.2.1
        y := pr.2.2.1
        size := pr.2.2.2
        image := match load_image pr.1 with
          | some data => ItemImage.loaded data
          | none => ItemImage.placeholder (pr.1.name.take 8) })),
      rng1)

/-- C8: the flat-lay compositor is a deterministic function of the outfit and
the placeholder substitution: its output does not depend on the incoming
global random state (two invocations with the same inputs therefore produce
byte-identical image data), and the layout itself depends only on the item
count. -/
theorem flatlay_generation_deterministic (outfit : Outfit) (occasion season : String)
    (load_image : WardrobeItem → Option ImageData) (rng rng' : RandomState) :
    (generate_outfit_flatlay_image outfit occasion season load_image rng).1 =
      (generate_outfit_flatlay_image outfit occasion season load_image rng').1 ∧
    ∀ items1 items2 : List WardrobeItem, items1.length = items2.length →
      (calculate_flatlay_positions items1 400 300 rng).1 =
        (calculate_flatlay_positions items2 400 300 rng').1 := by
  constructor
  · simp only [generate_outfit_flatlay_image]
    rw [calculate_flatlay_positions_fst_congr (outfit_all_items outfit)
      (outfit_all_items outfit) 400 300 rng rng' rfl]
    by_cases h : (outfit_all_items outfit).isEmpty <;> simp [h]
  · intro items1 items2 hlen
    exact calculate_flatlay_positions_fst_congr items1 items2 400 300 rng rng' hlen

theorem flatlay_generation_deterministic_witness :
    (calculate_flatlay_positions [witness_top] 400 300 3).1 =
      (calculate_flatlay_positions [witness_shoe] 400 300 4).1 :=
  (flatlay_generation_deterministic (create_outfit_from_items [] "casual" "all" "empty")
    "casual" "all" (fun _ => none) 3 4).2 [witness_top] [witness_shoe] (by decide)

/-- One entry of the parsed batch response (`OutfitRanking` Pydantic model,
services.py, lines 532-541).  `outfit_id` is an unconstrained Python `int`,
so it is embedded as `Int`.  The float `confidence_score` is embedded as
`ℚ`. -/
structure OutfitRanking where
  outfit_id : Int
  style_description : String
  color_scheme : List String
  style_tags : List String
  confidence_score : ℚ
  style_notes : String
  improvement_suggestions : List String
  ranking_position : Int
deriving DecidableEq

/-- The parsed batch response (`BatchOutfitAnalysis` Pydantic model,
services.py, lines 544-548). -/
structure BatchOutfitAnalysis where
  outfit_rankings : List OutfitRanking
  overall_analysis : String
  top_recommendations : List Int
deriving DecidableEq

/-- Outcome of the whole prompt-build / `chain.invoke` / parse step of the
batched analyzer: either a parsed `BatchOutfitAnalysis`, or the text of the
exception the provider call or the parser raised. -/
inductive BatchCallResult where
  | ok (analysis : BatchOutfitAnalysis)
  | err (message : String)
deriving DecidableEq

/-- Python list subscription `l[i]` with an `int` index: non-negative indices
address from the front, indices in `[-len, -1]` address from the back, and
anything else raises `IndexError` (`none` here). -/
def pyGetElem {α : Type} (l : List α) (i : Int) : Option α :=
  if 0 ≤ i then l[i.toNat]?
  else if 0 ≤ i + l.length then l[(i + l.length).toNat]?
  else none

/-- The per-ranking `outfit.update({...})` of the success path (services.py,
lines 1151-1160), applied to the `.copy()` of the addressed candidate. -/
def apply_ranking (outfit : Outfit) (r : OutfitRanking) : Outfit :=
  { outfit with
    style_description := some r.style_description
    color_scheme := some r.color_scheme
    style_tags := some r.style_tags
    confidence_score := some r.confidence_score
    style_notes := some r.style_notes
    improvement_suggestions := some r.improvement_suggestions
    ranking_position := some r.ranking_position }

/-- The `for ranking in analysis_result.outfit_rankings` loop of the success
path (services.py, lines 1147-1161): a ranking whose `outfit_id` fails the
`outfit_idx < len(outfits)` guard is skipped; one that passes the guard
subscripts `outfits[outfit_idx]`, which for an index below `-len(outfits)`
raises `IndexError` (`none`, aborting the loop and with it the whole `try`
block). -/
def collect_ranked (outfits : List Outfit) : List OutfitRanking → Option (List Outfit)
  | [] => some []
  | r :: rs =>
    if r.outfit_id < (outfits.length : Int) then
      match pyGetElem outfits r.outfit_id with
      | some o => (collect_ranked outfits rs).map (fun tl => apply_ranking o r :: tl)
      | none => none
    else
      collect_ranked outfits rs

/-- The sort key `x.get('ranking_position', 999)` (services.py, line 1164). -/
def ranking_sort_key (o : Outfit) : Int := o.ranking_position.getD 999

/-- `analyzed_outfits.sort(key=...)` (services.py, line 1164).  Python's
`list.sort` is a stable sort by the key; `List.insertionSort` with the
non-strict key order is stable, hence extensionally the same function. -/
def sort_by_ranking (l : List Outfit) : List Outfit :=
  l.insertionSort (fun a b => ranking_sort_key a ≤ ranking_sort_key b)

/-- The `outfit.update({...})` of the fallback path (services.py, lines
1181-1189), executed in place on the `i`-th of the first `max_outfits` input
candidate dicts. -/
def fallback_annotate (occasion season message : String) (i : Nat) (outfit : Outfit) :
    Outfit :=
  { outfit with
    style_description := some ("Stylish " ++ occasion ++ " outfit for " ++ season)
    color_scheme := some (outfit.items.map (fun it => it.color))
    style_tags := some [occasion, season]
    confidence_score := some ((6 : ℚ) / 10)
    style_notes := some ("Error during analysis: " ++ message)
    improvement_suggestions := some []
    ranking_position := some ((i : Int) + 1) }

/-- Effect of the fallback loop `for i, outfit in enumerate(outfits[:max_outfits])`
(services.py, lines 1180-1190) on the caller's candidate list: the first
`min max_outfits (length)` dicts are updated in place (starting at index `i`),
the rest are untouched. -/
def fallback_mutate (occasion season message : String) :
    Nat → Nat → List Outfit → List Outfit
  | _, _, [] => []
  | _, 0, rest => rest
  | i, n + 1, o :: os =>
    fallback_annotate occasion season message i o ::
      fallback_mutate occasion season message (i + 1) n os

/-- The non-outfit part of the dict returned by `_analyze_all_outfits_with_ai`. -/
structure BatchAnalysisOutput where
  outfits : List Outfit
  overall_analysis : String
  total_analyzed : Nat
deriving DecidableEq

/-- Message of the `IndexError` raised by an out-of-range subscription. -/
def index_error_message : String := "list index out of range"

/-- `StyleRecommendationService._analyze_all_outfits_with_ai` (services.py,
lines 1095-1196).  The first component of the result is the caller's
candidate list after the call (the success path only copies, the fallback
path mutates in place); the second is the returned dict.  A parsed response
whose conversion loop raises `IndexError` is caught by the same
`except Exception` as a provider failure and lands in the fallback. -/
def analyze_all_outfits_with_ai (outfits : List Outfit) (occasion season : String)
    (max_outfits : Nat) (call : BatchCallResult) : List Outfit × BatchAnalysisOutput :=
  match call with
  | .ok analysis =>
    match collect_ranked outfits analysis.outfit_rankings with
    | some analyzed =>
      (outfits,
        { outfits := (sort_by_ranking analyzed).take max_outfits
          overall_analysis := analysis.overall_analysis
          total_analyzed := outfits.length })
    | none =>
      let store := fallback_mutate occasion season index_error_message 0 max_outfits outfits
      (store,
        { outfits := store.take max_outfits
          overall_analysis := "Analysis failed: " ++ index_error_message
          total_analyzed := outfits.length })
  | .err message =>
    let store := fallback_mutate occasion season message 0 max_outfits outfits
    (store,
      { outfits := store.take max_outfits
        overall_analysis := "Analysis failed: " ++ message
        total_analyzed := outfits.length })

lemma fallback_mutate_length (occasion season message : String) (i n : Nat)
    (l : List Outfit) :
    (fallback_mutate occasion season message i n l).length = l.length := by
  induction l generalizing i n with
  | nil => cases n <;> rfl
  | cons o os ih =>
    cases n with
    | zero => rfl
    | succ m => simpa [fallback_mutate] using ih (i + 1) m

lemma fallback_mutate_getElem? (occasion season message : String) (i n j : Nat)
    (l : List Outfit) :
    (fallback_mutate occasion season message i n l)[j]? =
      if j < n then (l[j]?).map (fallback_annotate occasion season message (i + j))
      else l[j]? := by
  induction l generalizing i n j with
  | nil => cases n <;> simp [fallback_mutate]
  | cons o os ih =>
    cases n with
    | zero => simp [fallback_mutate]
    | succ m =>
      cases j with
      | zero => simp [fallback_mutate]
      | succ k =>
        have := ih (i + 1) m k
        simp only [fallback_mutate, List.getElem?_cons_succ, this]
        by_cases hk : k < m
        · rw [if_pos hk, if_pos (by omega)]
          have : i + 1 + k = i + (k + 1) := by omega
          rw [this]
        · rw [if_neg hk, if_neg (by omega)]

lemma fallback_take_getElem? (occasion season message : String) (n j : Nat)
    (l : List Outfit) :
    ((fallback_mutate occasion season message 0 n l).take n)[j]? =
      if j < n then (l[j]?).map (fallback_annotate occasion season message j) else none := by
  rw [List.getElem?_take]
  by_cases hj : j < n
  · rw [if_pos hj, if_pos hj, fallback_mutate_getElem?, if_pos hj, Nat.zero_add]
  · rw [if_neg hj, if_neg hj]

/-- Base candidate used in the concrete analyzer scenarios. -/
def sample_candidate : Outfit :=
  create_outfit_from_items [witness_top, witness_shoe] "casual" "summer" "Sample"

/-- C3: when the batched LLM call raises, the analyzer does not raise (its
fallback is total) and returns exactly `min N #candidates` outfits, the i-th
of which carries `style_tags = [occasion, season]`, the fixed confidence
score 6/10 ∈ [0,1], the error text inside `style_notes`, and ranking
position `i + 1`. -/
theorem analyze_fallback_properties (outfits : List Outfit)
    (occasion season message : String) (max_outfits : Nat)
    (hne : outfits ≠ []) (hN : 1 ≤ max_outfits) :
    ((analyze_all_outfits_with_ai outfits occasion season max_outfits
        (.err message)).2.outfits).length = min max_outfits outfits.length ∧
    ∀ (i : Nat) (c : Outfit), ((analyze_all_outfits_with_ai outfits occasion season max_outfits
        (.err message)).2.outfits)[i]? = some c →
      c.style_tags = some [occasion, season] ∧
      c.confidence_score = some ((6 : ℚ) / 10) ∧
      ((0 : ℚ) ≤ 6 / 10 ∧ (6 : ℚ) / 10 ≤ 1) ∧
      c.style_notes = some ("Error during analysis: " ++ message) ∧
      c.ranking_position = some ((i : Int) + 1) := by
  constructor
  · simp [analyze_all_outfits_with_ai, List.length_take, fallback_mutate_length]
  · intro i c hc
    simp only [analyze_all_outfits_with_ai] at hc
    rw [fallback_take_getElem?] at hc
    by_cases hi : i < max_outfits
    · rw [if_pos hi] at hc
      obtain ⟨o, -, rfl⟩ := Option.map_eq_some'.mp hc
      refine ⟨rfl, rfl, by norm_num, rfl, rfl⟩
    · rw [if_neg hi] at hc
      exact absurd hc (by simp)

theorem analyze_fallback_properties_witness :
    ((analyze_all_outfits_with_ai [sample_candidate] "casual" "summer" 1
        (.err "provider timeout")).2.outfits).length =
      min 1 ([sample_candidate] : List Outfit).length :=
  (analyze_fallback_properties [sample_candidate] "casual" "summer" "provider timeout" 1
    (by decide) (by decide)).1

instance : IsTotal Outfit (fun a b => ranking_sort_key a ≤ ranking_sort_key b) :=
  ⟨fun a b => le_total (ranking_sort_key a) (ranking_sort_key b)⟩

instance : IsTrans Outfit (fun a b => ranking_sort_key a ≤ ranking_sort_key b) :=
  ⟨fun _ _ _ hab hbc => le_trans hab hbc⟩

/-- C4 (amended): on every path the analyzer returns at most `max_outfits`
outfits, in non-decreasing order of `ranking_position`.  The original bound
`min N #candidates` and the distinctness of ranking positions fail: distinct
response entries may repeat an `outfit_id` or a `ranking_position`, see the
counterexample. -/
theorem analyze_output_bounded_and_sorted (outfits : List Outfit)
    (occasion season : String) (max_outfits : Nat) (call : BatchCallResult) :
    ((analyze_all_outfits_with_ai outfits occasion season max_outfits
        call).2.outfits).length ≤ max_outfits ∧
    List.Pairwise (fun a b => ranking_sort_key a ≤ ranking_sort_key b)
      ((analyze_all_outfits_with_ai outfits occasion season max_outfits
        call).2.outfits) := by
  have hfb : ∀ message : String,
      List.Pairwise (fun a b => ranking_sort_key a ≤ ranking_sort_key b)
        ((fallback_mutate occasion season message 0 max_outfits outfits).take
          max_outfits) := by
    intro message
    rw [List.pairwise_iff_getElem]
    intro a b ha hb hab
    have ha' := List.getElem?_eq_getElem ha
    have hb' := List.getElem?_eq_getElem hb
    rw [fallback_take_getElem?] at ha' hb'
    by_cases hA : a < max_outfits
    · by_cases hB : b < max_outfits
      · rw [if_pos hA] at ha'
        rw [if_pos hB] at hb'
        obtain ⟨oa, -, hoa⟩ := Option.map_eq_some'.mp ha'
        obtain ⟨ob, -, hob⟩ := Option.map_eq_some'.mp hb'
        rw [← hoa, ← hob]
        simp only [ranking_sort_key, fallback_annotate, Option.getD_some]
        omega
      · rw [if_neg hB] at hb'
        exact absurd hb'.symm (by simp)
    · rw [if_neg hA] at ha'
      exact absurd ha'.symm (by simp)
  rcases call with analysis | message
  · rcases hcol : collect_ranked outfits analysis.outfit_rankings with _ | analyzed
    · constructor
      · simp [analyze_all_outfits_with_ai, hcol, List.length_take, fallback_mutate_length]
      · simpa [analyze_all_outfits_with_ai, hcol] using hfb index_error_message
    · constructor
      · simp [analyze_all_outfits_with_ai, hcol, List.length_take]
      · have hsorted : List.Pairwise (fun a b => ranking_sort_key a ≤ ranking_sort_key b)
            (sort_by_ranking analyzed) := by
          have h := List.sorted_insertionSort
            (fun a b => ranking_sort_key a ≤ ranking_sort_key b) analyzed
          exact h
        simpa [analyze_all_outfits_with_ai, hcol] using
          hsorted.sublist (List.take_sublist max_outfits _)
  · constructor
    · simp [analyze_all_outfits_with_ai, List.length_take]
    · simpa [analyze_all_outfits_with_ai] using hfb message

/-- Response entry addressing candidate 0, used twice in the C4
counterexample. -/
def duplicated_ranking : OutfitRanking :=
  { outfit_id := 0
    style_description := "repeat"
    color_scheme := []
    style_tags := []
    confidence_score := 1 / 2
    style_notes := "n"
    improvement_suggestions := []
    ranking_position := 1 }

/-- C4 counterexample: one candidate, `N = 2`, and a parsed response whose
two entries both address candidate 0 with ranking position 1.  The analyzer
returns 2 outfits — more than `min N #candidates = 1` — and both share the
same ranking position, refuting the claimed bound and distinctness. -/
theorem claim_c4_counterexample :
    ¬ (((analyze_all_outfits_with_ai [sample_candidate] "casual" "summer" 2
          (.ok { outfit_rankings := [duplicated_ranking, duplicated_ranking]
                 overall_analysis := "dup"
                 top_recommendations := [] })).2.outfits).length ≤
        min 2 ([sample_candidate] : List Outfit).length) ∧
    ((analyze_all_outfits_with_ai [sample_candidate] "casual" "summer" 2
        (.ok { outfit_rankings := [duplicated_ranking, duplicated_ranking]
               overall_analysis := "dup"
               top_recommendations := [] })).2.outfits).map
        (fun o => o.ranking_position) = [some 1, some 1] := by
  constructor
  · decide
  · decide

/-- C5 (amended): a response entry whose `outfit_id` is at least the number
of candidates is dropped from the conversion without an error.  Negative ids
pass the `outfit_idx < len(outfits)` guard instead: ids in `[-len, -1]`
silently address a candidate from the end (Python negative indexing) and ids
below `-len` raise `IndexError`, sending the whole batch to the fallback
path — see the counterexample. -/
theorem overlength_outfit_ids_dropped (outfits : List Outfit) (r : OutfitRanking)
    (rs : List OutfitRanking) (h : (outfits.length : Int) ≤ r.outfit_id) :
    collect_ranked outfits (r :: rs) = collect_ranked outfits rs := by
  simp only [collect_ranked]
  rw [if_neg (by omega)]

/-- Response entry with an over-length index, used by the C5 witness. -/
def out_of_range_ranking : OutfitRanking :=
  { outfit_id := 5
    style_description := "big"
    color_scheme := []
    style_tags := []
    confidence_score := 1 / 2
    style_notes := "n"
    improvement_suggestions := []
    ranking_position := 1 }

theorem overlength_outfit_ids_dropped_witness :
    ((([sample_candidate] : List Outfit).length : Int) ≤ out_of_range_ranking.outfit_id) ∧
    collect_ranked [sample_candidate] [out_of_range_ranking] =
      collect_ranked [sample_candidate] [] :=
  ⟨by decide,
    overlength_outfit_ids_dropped [sample_candidate] out_of_range_ranking [] (by decide)⟩

/-- Response entry with the negative index -1, used by the C5
counterexample. -/
def negative_index_ranking : OutfitRanking :=
  { outfit_id := -1
    style_description := "neg"
    color_scheme := []
    style_tags := []
    confidence_score := 1 / 2
    style_notes := "n"
    improvement_suggestions := []
    ranking_position := 1 }

/-- C5 counterexample: a single candidate and a parsed response whose only
entry has `outfit_id = -1`.  The claim says every such entry is dropped, so
the output should be empty; the code instead keeps it (the guard
`outfit_idx < len(outfits)` passes and `outfits[-1]` addresses the last
candidate), returning one outfit derived from `sample_candidate`. -/
theorem claim_c5_counterexample :
    ((analyze_all_outfits_with_ai [sample_candidate] "casual" "summer" 5
        (.ok { outfit_rankings := [negative_index_ranking]
               overall_analysis := "neg"
               top_recommendations := [] })).2.outfits).length = 1 ∧
    ((analyze_all_outfits_with_ai [sample_candidate] "casual" "summer" 5
        (.ok { outfit_rankings := [negative_index_ranking]
               overall_analysis := "neg"
               top_recommendations := [] })).2.outfits).map (fun o => o.name) =
      [sample_candidate.name] := by
  constructor
  · decide
  · decide

/-- C10: the two paths of the batch analyzer differ in whether the caller's
candidate list is mutated.  When the success path completes, the caller's
list is returned unchanged (each output outfit is built from a `.copy()`).
When the provider call raises, the first `min N #candidates` input dicts are
annotated in place with the fallback fields, and the returned outfits are
exactly that mutated prefix. -/
theorem batch_analyzer_mutation_frame (outfits : List Outfit)
    (occasion season : String) (max_outfits : Nat) :
    (∀ (analysis : BatchOutfitAnalysis) (analyzed : List Outfit),
      collect_ranked outfits analysis.outfit_rankings = some analyzed →
      (analyze_all_outfits_with_ai outfits occasion season max_outfits (.ok analysis)).1 =
        outfits) ∧
    (∀ message : String,
      ((analyze_all_outfits_with_ai outfits occasion season max_outfits
          (.err message)).1).length = outfits.length ∧
      (∀ i : Nat,
        ((analyze_all_outfits_with_ai outfits occasion season max_outfits
            (.err message)).1)[i]? =
          if i < max_outfits then
            (outfits[i]?).map (fallback_annotate occasion season message i)
          else outfits[i]?) ∧
      (analyze_all_outfits_with_ai outfits occasion season max_outfits
          (.err message)).2.outfits =
        ((analyze_all_outfits_with_ai outfits occasion season max_outfits
            (.err message)).1).take max_outfits) := by
  refine ⟨?_, ?_⟩
  · intro analysis analyzed hcol
    simp [analyze_all_outfits_with_ai, hcol]
  · intro message
    refine ⟨?_, ?_, rfl⟩
    · simp [analyze_all_outfits_with_ai, fallback_mutate_length]
    · intro i
      simp only [analyze_all_outfits_with_ai]
      rw [fallback_mutate_getElem?, Nat.zero_add]

/-- Empty parsed response, used by the C10 witness. -/
def empty_batch_analysis : BatchOutfitAnalysis :=
  { outfit_rankings := [], overall_analysis := "none", top_recommendations := [] }

theorem batch_analyzer_mutation_frame_witness :
    (analyze_all_outfits_with_ai [sample_candidate] "casual" "summer" 1
        (.ok empty_batch_analysis)).1 = [sample_candidate] ∧
    ((analyze_all_outfits_with_ai [sample_candidate] "casual" "summer" 1
        (.err "boom")).1)[0]? =
      (([sample_candidate] : List Outfit)[0]?).map
        (fallback_annotate "casual" "summer" "boom" 0) := by
  constructor
  · exact (batch_analyzer_mutation_frame [sample_candidate] "casual" "summer" 1).1
      empty_batch_analysis [] (by decide)
  · have h := ((batch_analyzer_mutation_frame [sample_candidate] "casual" "summer" 1).2
      "boom").2.1 0
    simpa using h

lemma foldl_set_getElem? {α : Type} (value : Nat → α) (order : List Nat)
    (acc : List (Option α)) (j : Nat) :
    (order.foldl (fun a i => a.set i (some (value i))) acc)[j]? =
      if j ∈ order ∧ j < acc.length then some (some (value j)) else acc[j]? := by
  induction order generalizing acc with
  | nil => simp
  | cons i rest ih =>
    simp only [List.foldl_cons]
    rw [ih, List.length_set]
    by_cases hlen : j < acc.length
    · by_cases hmem : j ∈ rest
      · rw [if_pos ⟨hmem, hlen⟩, if_pos ⟨List.mem_cons_of_mem i hmem, hlen⟩]
      · rw [if_neg (fun h => hmem h.1), List.getElem?_set]
        by_cases hij : i = j
        · rw [if_pos hij, if_pos (hij ▸ hlen),
            if_pos ⟨hij ▸ List.mem_cons_self i rest, hlen⟩, hij]
        · rw [if_neg hij,
            if_neg (fun h => (List.mem_cons.mp h.1).elim (fun he => hij he.symm) hmem)]
    · rw [if_neg (fun h => hlen h.2), if_neg (fun h => hlen h.2), List.getElem?_set]
      by_cases hij : i = j
      · rw [if_pos hij, if_neg (fun h => hlen (hij ▸ h)),
          List.getElem?_eq_none (by omega)]
      · rw [if_neg hij]

/-- Outcome of the mannequin stage for one outfit
(`NanobananaMannequinService.generate_mannequin_image` as called in
services.py, lines 936-955): a success dict with image bytes and analysis, a
failure dict, or a raised exception. -/
inductive MannequinOutcome where
  | success (data : ImageData) (analysis : String)
  | failure (message : String)
  | raised (message : String)
deriving DecidableEq

/-- The two provider results one worker observes while processing one outfit:
the flat-lay result (`none` when `generate_outfit_flatlay_image` reports
failure) and the mannequin outcome. -/
structure RenderOutcome where
  flatlay : Option ImageData
  mannequin : MannequinOutcome
deriving DecidableEq

/-- `StyleRecommendationService._process_single_outfit` (services.py, lines
913-968): store the flat-lay bytes when the flat-lay succeeded, then attempt
the mannequin render, nulling the mannequin fields on failure or exception;
when the flat-lay failed, null all three image fields. -/
def process_single_outfit (outfit : Outfit) (outcome : RenderOutcome) : Outfit :=
  match outcome.flatlay with
  | none =>
    { outfit with
      flatlay_image_data := none
      mannequin_image_data := none
      mannequin_analysis := none }
  | some data =>
    let with_flatlay := { outfit with flatlay_image_data := some data }
    match outcome.mannequin with
    | .success mdata analysis =>
      { with_flatlay with
        mannequin_image_data := some mdata
        mannequin_analysis := some analysis }
    | .failure _ =>
      { with_flatlay with mannequin_image_data := none, mannequin_analysis := none }
    | .raised _ =>
      { with_flatlay with mannequin_image_data := none, mannequin_analysis := none }

/-- The `except` branch of the result-collection loop (services.py, lines
1005-1013): keep the original outfit with all image fields nulled. -/
def null_image_fields (outfit : Outfit) : Outfit :=
  { outfit with
    flatlay_image_data := none
    mannequin_image_data := none
    mannequin_analysis := none }

/-- Placeholder outfit backing `List.getD`; every access is guarded by an
index bound, so it never surfaces. -/
def default_outfit : Outfit := create_outfit_from_items [] "" "" ""

/-- The value the coordinator stores into slot `i` once the future for outfit
`i` settles: the worker's result, or — when even `_process_single_outfit`
raised (`crashed i`) — the original outfit with nulled image fields. -/
def completed_outfit (outfits : List Outfit) (outcomes : Nat → RenderOutcome)
    (crashed : Nat → Bool) (i : Nat) : Outfit :=
  if crashed i then null_image_fields (outfits.getD i default_outfit)
  else process_single_outfit (outfits.getD i default_outfit) (outcomes i)

/-- `StyleRecommendationService._process_outfits_concurrently` (services.py,
lines 970-1017).  `processed_outfits` starts as `[None] * len(outfits)`;
`as_completed` yields each submitted future exactly once in an arbitrary
completion order, and each completion writes its slot.  The worker-pool size
only influences the completion order, which is quantified over. -/
def process_outfits_concurrently (outfits : List Outfit)
    (outcomes : Nat → RenderOutcome) (crashed : Nat → Bool)
    (completion_order : List Nat) : List (Option Outfit) :=
  if outfits.isEmpty then []
  else
    completion_order.foldl
      (fun acc i => acc.set i (some (completed_outfit outfits outcomes crashed i)))
      (List.replicate outfits.length none)

lemma process_outfits_concurrently_eq (outfits : List Outfit)
    (outcomes : Nat → RenderOutcome) (crashed : Nat → Bool)
    (completion_order : List Nat)
    (hperm : completion_order.Perm (List.range outfits.length)) :
    process_outfits_concurrently outfits outcomes crashed completion_order =
      (List.range outfits.length).map
        (fun i => some (completed_outfit outfits outcomes crashed i)) := by
  cases hempty : outfits.isEmpty with
  | true =>
    have h0 : outfits.length = 0 := by
      rw [List.isEmpty_iff] at hempty
      simp [hempty]
    simp [process_outfits_concurrently, hempty, h0]
  | false =>
    apply List.ext_getElem?
    intro j
    simp only [process_outfits_concurrently, hempty, Bool.false_eq_true, if_false]
    rw [foldl_set_getElem?, List.getElem?_map]
    by_cases hj : j < outfits.length
    · rw [if_pos ⟨hperm.mem_iff.mpr (List.mem_range.mpr hj), by
        simpa [List.length_replicate] using hj⟩, List.getElem?_range hj]
      rfl
    · rw [if_neg (fun h => hj (by simpa [List.length_replicate] using h.2)),
        List.getElem?_replicate, if_neg hj,
        List.getElem?_eq_none (by simpa [List.length_range] using hj)]
      rfl

/-- C1: for every input list, every per-outfit render outcome and every
completion order (any permutation of the submitted indices), the coordinator
returns a list of the same length as its input whose `i`-th slot holds
exactly the processed version of the `i`-th input outfit — the result does
not mention the completion order at all. -/
theorem process_outfits_concurrently_order_independent (outfits : List Outfit)
    (outcomes : Nat → RenderOutcome) (crashed : Nat → Bool)
    (completion_order : List Nat)
    (hperm : completion_order.Perm (List.range outfits.length)) :
    process_outfits_concurrently outfits outcomes crashed completion_order =
      (List.range outfits.length).map
        (fun i => some (completed_outfit outfits outcomes crashed i)) :=
  process_outfits_concurrently_eq outfits outcomes crashed completion_order hperm

/-- Render outcomes used in the concurrency witnesses: outfit 0 is rigged to
fail its flat-lay, outfit 1 renders fully. -/
def demo_outcome (i : Nat) : RenderOutcome :=
  if i = 0 then { flatlay := none, mannequin := MannequinOutcome.failure "skipped" }
  else { flatlay := some [1], mannequin := MannequinOutcome.success [2] "ok" }

/-- Variant of `demo_outcome` that differs only at index 0. -/
def demo_outcome_alt (i : Nat) : RenderOutcome :=
  if i = 0 then { flatlay := some [9], mannequin := MannequinOutcome.raised "boom" }
  else demo_outcome i

/-- Two-outfit input used in the concurrency witnesses. -/
def demo_outfits : List Outfit :=
  [sample_candidate, create_outfit_from_items [winter_dress] "formal" "winter" "Solo Dress"]

theorem process_outfits_concurrently_order_independent_witness :
    process_outfits_concurrently demo_outfits demo_outcome (fun _ => false) [1, 0] =
      (List.range demo_outfits.length).map
        (fun i => some (completed_outfit demo_outfits demo_outcome (fun _ => false) i)) :=
  process_outfits_concurrently_order_independent demo_outfits demo_outcome (fun _ => false)
    [1, 0] (by decide)

/-- C2: a render failure is isolated to its outfit.  For every batch and
completion order: (a) no outfit is dropped — the output length equals the
input length; (b) an outfit whose flat-lay failed appears at its own index
with all image fields `None`; (c) an outfit whose flat-lay succeeded but
whose mannequin render failed or raised appears at its own index with the
flat-lay bytes present and the mannequin fields `None`; (d) changing the
outcome (or crash status) of outfit `i` alone — even together with the
completion order — leaves every other index unchanged. -/
theorem render_failure_isolated (outfits : List Outfit)
    (outcomes outcomes' : Nat → RenderOutcome) (crashed crashed' : Nat → Bool)
    (order order' : List Nat) (i : Nat)
    (hperm : order.Perm (List.range outfits.length))
    (hperm' : order'.Perm (List.range outfits.length))
    (hagree : ∀ j : Nat, j ≠ i → outcomes' j = outcomes j ∧ crashed' j = crashed j) :
    (process_outfits_concurrently outfits outcomes crashed order).length =
        outfits.length ∧
    ((outcomes i).flatlay = none → i < outfits.length →
      (process_outfits_concurrently outfits outcomes crashed order)[i]? =
        some (some (null_image_fields (outfits.getD i default_outfit)))) ∧
    (∀ data : ImageData, (outcomes i).flatlay = some data → crashed i = false →
      (∀ mdata analysis, (outcomes i).mannequin ≠ MannequinOutcome.success mdata analysis) →
      i < outfits.length →
      (process_outfits_concurrently outfits outcomes crashed order)[i]? =
        some (some { outfits.getD i default_outfit with
          flatlay_image_data := some data
          mannequin_image_data := none
          mannequin_analysis := none })) ∧
    (∀ j : Nat, j < outfits.length → j ≠ i →
      (process_outfits_concurrently outfits outcomes' crashed' order')[j]? =
        (process_outfits_concurrently outfits outcomes crashed order)[j]?) := by
  rw [process_outfits_concurrently_eq outfits outcomes crashed order hperm,
    process_outfits_concurrently_eq outfits outcomes' crashed' order' hperm']
  refine ⟨by simp, ?_, ?_, ?_⟩
  · intro hflat hi
    rw [List.getElem?_map, List.getElem?_range hi]
    cases hcrash : crashed i with
    | true => simp [completed_outfit, hcrash]
    | false =>
      simp only [completed_outfit, hcrash, Bool.false_eq_true, if_false,
        process_single_outfit, hflat, Option.map_some']
      rfl
  · intro data hflat hcrash hmann hi
    rw [List.getElem?_map, List.getElem?_range hi]
    simp only [completed_outfit, hcrash, Bool.false_eq_true, if_false,
      process_single_outfit, hflat, Option.map_some']
    rcases hm : (outcomes i).mannequin with ⟨mdata, analysis⟩ | message | message
    · exact absurd hm (hmann mdata analysis)
    · rfl
    · rfl
  · intro j hj hji
    rw [List.getElem?_map, List.getElem?_map, List.getElem?_range hj]
    simp only [Option.map_some', completed_outfit, (hagree j hji).1, (hagree j hji).2]

theorem render_failure_isolated_witness :
    (process_outfits_concurrently demo_outfits demo_outcome (fun _ => false) [1, 0])[0]? =
      some (some (null_image_fields (demo_outfits.getD 0 default_outfit))) :=
  (render_failure_isolated demo_outfits demo_outcome demo_outcome_alt
      (fun _ => false) (fun _ => false) [1, 0] [0, 1] 0 (by decide) (by decide)
      (fun j hj => by simp [demo_outcome_alt, hj])).2.1 (by decide) (by decide)
